import Mathlib

/-
Verification development for the token lifecycle and resilient request layer
of the zoom-mcp server (src/index.js).

The JavaScript core is shallowly embedded: the credential file and the
module-level `cachedTokens` variable become an explicit state record `St`;
`Date.now()` and the outcomes of the outbound HTTP calls (token endpoint and
target API) are supplied by an explicit environment `Env`; functions that can
throw return `Except String`.  Instrumentation counters (`tokenCalls`,
`apiCalls`, `sleeps`) record the observable effects the specification talks
about: token-endpoint requests, target-API requests, and backoff delays.
-/

set_option autoImplicit false
set_option linter.unusedVariables false

namespace ZoomMcp

/-! ### A small JSON model

Response bodies are modelled as already-parsed JSON objects: a flat
association list of string keys to values.  Array values hold opaque items
(modelled as strings), which is all the pagination layer inspects. -/

/-- Opaque item carried inside a JSON array (a channel, message, ... DTO). -/
abbrev Item := String

/-- A JSON value as the core inspects it: string, number, boolean, array of
items, or null. -/
inductive JVal where
  | str (s : String)
  | num (n : Int)
  | bool (b : Bool)
  | arr (xs : List Item)
  | null
deriving DecidableEq, Repr

/-- A parsed JSON object: keys in insertion order (JS `Object.keys` order). -/
abbrev JObj := List (String × JVal)

/-- Property lookup `data[k]`: first binding wins, absent key gives `none`
(JS `undefined`). -/
def jget (o : JObj) (k : String) : Option JVal :=
  (o.find? (fun p => p.1 = k)).map Prod.snd

/-- JavaScript truthiness of a JSON value: `""`, `0`, `false` and `null` are
falsy; every array (even empty) is truthy. -/
def jTruthy : JVal → Bool
  | .str s => s ≠ ""
  | .num n => n ≠ 0
  | .bool b => b
  | .arr _ => true
  | .null => false

/-- JavaScript string conversion of a JSON value, as produced by template
interpolation (arrays join with commas). -/
def jToStr : JVal → String
  | .str s => s
  | .num n => toString n
  | .bool b => if b then "true" else "false"
  | .arr xs => String.intercalate "," xs
  | .null => "null"

/-- Rendering of a single JSON value inside `JSON.stringify`. -/
def jValStringify : JVal → String
  | .str s => "\"" ++ s ++ "\""
  | .num n => toString n
  | .bool b => if b then "true" else "false"
  | .arr xs => "[" ++ String.intercalate "," (xs.map (fun x => "\"" ++ x ++ "\"")) ++ "]"
  | .null => "null"

/-- Crude model of `JSON.stringify` on an object, used only as the last
fallback when extracting an error detail from a response body. -/
def jStringify (o : JObj) : String :=
  "\x7b" ++ String.intercalate ","
    (o.map (fun p => "\"" ++ p.1 ++ "\":" ++ jValStringify p.2)) ++ "\x7d"

/-! ### Data model: credential sets and module state -/

/-- The Credential Set persisted in `tokens.json`.  Every field is optional
because `loadTokens` deserialises whatever JSON is present without
validation, and the token-endpoint response fields may be absent. -/
structure Tokens where
  access_token : Option String
  refresh_token : Option String
  token_type : Option String
  expires_in : Option Int
  scope : Option String
  created_at : Option Int
deriving DecidableEq, Repr

/-- Module-level mutable state of src/index.js: the in-memory cache
`cachedTokens` and the durable record behind `TOKENS_PATH` (`none` when the
file does not exist). -/
structure St where
  cachedTokens : Option Tokens
  file : Option Tokens
deriving DecidableEq, Repr

/-- The onboarding / remediation message (`ONBOARDING_MSG`), parameterised by
`__dirname` which the source interpolates into the command to run. -/
def ONBOARDING_MSG (dirname : String) : String :=
  "⚠️ Zoom não autorizado. O usuário precisa fazer login na conta Zoom dele.\n\n" ++
  "**Passo a passo:**\n" ++
  "1. Abra o terminal na pasta do zoom-mcp\n" ++
  "2. Execute:\n" ++
  "```\n" ++
  "cd \"" ++ dirname.replace "\\" "/" ++ "\"\n" ++
  "npm run auth\n" ++
  "```\n" ++
  "(As credenciais ZOOM_CLIENT_ID e ZOOM_CLIENT_SECRET devem estar definidas como variáveis de ambiente)\n\n" ++
  "3. O browser vai abrir — faça login na sua conta Zoom e autorize\n" ++
  "4. Após autorizar, os tokens são salvos automaticamente\n" ++
  "5. Volte aqui e tente novamente\n\n" ++
  "Obs: cada usuário faz isso apenas **uma vez**. O token renova automaticamente depois."

/-- Source `isAuthorized()`: `existsSync(TOKENS_PATH)`. -/
def isAuthorized (st : St) : Bool :=
  st.file.isSome

/-- Source `loadTokens()`: throws the onboarding message when the file is
absent; otherwise parses the record, stores it in the cache, and returns it. -/
def loadTokens (dirname : String) (st : St) : Except String (Tokens × St) :=
  match st.file with
  | none => .error (ONBOARDING_MSG dirname)
  | some data => .ok (data, { st with cachedTokens := some data })

/-- Source `saveTokens(tokens)`: sets the cache and fully overwrites the
durable record. -/
def saveTokens (tokens : Tokens) (st : St) : St :=
  { cachedTokens := some tokens, file := some tokens }

/-- Source `isTokenExpired(tokens)`.  `!tokens.created_at` and
`!tokens.expires_in` are JS truthiness tests, so a field that is absent or
zero counts as missing; otherwise the token is expired when
`Date.now() > created_at + expires_in * 1000 - 60000` (strict comparison). -/
def isTokenExpired (now : Int) (tokens : Option Tokens) : Bool :=
  match tokens with
  | none => true
  | some t =>
    match t.created_at, t.expires_in with
    | some c, some e =>
      if c = 0 ∨ e = 0 then true
      else decide (now > c + e * 1000 - 60000)
    | _, _ => true

/-! ### Token renewal -/

/-- Fields of a successful token-endpoint JSON response. -/
structure TokenData where
  access_token : Option String
  refresh_token : Option String
  token_type : Option String
  expires_in : Option Int
  scope : Option String
deriving DecidableEq, Repr

/-- Outcome of one POST to the authorization server's token endpoint:
a non-2xx response with its status and body text, or a parsed success body. -/
inductive RefreshOutcome where
  | httpErr (status : Nat) (body : String)
  | ok (data : TokenData)
deriving DecidableEq, Repr

/-- The brand-new Credential Set `refreshAccessToken` builds from a success
response: every field taken from the response, `created_at = Date.now()`. -/
def newTokensOf (data : TokenData) (now : Int) : Tokens :=
  { access_token := data.access_token
    refresh_token := data.refresh_token
    token_type := data.token_type
    expires_in := data.expires_in
    scope := data.scope
    created_at := some now }

/-- Source `refreshAccessToken(tokens)`.  The single token-endpoint request is
abstracted by `outcome`; on a non-ok response it throws the renewal-failure
message embedding status and body; on success it builds the new Credential
Set and persists it via `saveTokens` before returning it. -/
def refreshAccessToken (now : Int) (outcome : RefreshOutcome) (tokens : Tokens)
    (st : St) : Except String (Tokens × St) :=
  match outcome with
  | .httpErr status errText =>
    .error ("Falha ao renovar token (HTTP " ++ toString status ++ "): " ++ errText ++
      "\nExecute `node auth.js` novamente para reautorizar.")
  | .ok data =>
    let newTokens := newTokensOf data now
    .ok (newTokens, saveTokens newTokens st)

/-! ### Instrumented execution

`Run` threads the module state plus counters for the observable effects; `Env`
supplies the clock and the outcome of each successive outbound HTTP call. -/

/-- Execution trace state: module state, number of token-endpoint calls made,
number of target-API calls made, and the backoff delays slept, in order. -/
structure Run where
  st : St
  tokenCalls : Nat
  apiCalls : Nat
  sleeps : List Nat
deriving DecidableEq, Repr

/-- Initial trace state before a logical call. -/
def Run.init (st : St) : Run :=
  ⟨st, 0, 0, []⟩

/-- Outcome of one `fetch` against the target API: a network-level failure
(rejected promise) or an HTTP response with status and parsed JSON body. -/
inductive FetchOutcome where
  | netErr (msg : String)
  | resp (status : Nat) (body : JObj)
deriving DecidableEq, Repr

/-- Environment of a run: `__dirname`, the clock, and the outcome of the i-th
token-endpoint call and the i-th target-API call. -/
structure Env where
  dirname : String
  now : Int
  refresh : Nat → RefreshOutcome
  fetch : Nat → FetchOutcome

/-- One call to `refreshAccessToken` inside a run: consumes the next
token-endpoint outcome and threads the state. -/
def doRefreshR (env : Env) (tokens : Tokens) (r : Run) : Except String Tokens × Run :=
  let outcome := env.refresh r.tokenCalls
  let r1 : Run := { r with tokenCalls := r.tokenCalls + 1 }
  match refreshAccessToken env.now outcome tokens r1.st with
  | .error e => (.error e, r1)
  | .ok (t, st') => (.ok t, { r1 with st := st' })

/-- Source `getAccessToken()`:
`let tokens = cachedTokens || loadTokens(); if (isTokenExpired(tokens))
tokens = await refreshAccessToken(tokens); return tokens.access_token;`. -/
def getAccessTokenR (env : Env) (r : Run) : Except String (Option String) × Run :=
  let loadRes : Except String (Tokens × Run) :=
    match r.st.cachedTokens with
    | some t => .ok (t, r)
    | none =>
      match loadTokens env.dirname r.st with
      | .error e => .error e
      | .ok (t, st') => .ok (t, { r with st := st' })
  match loadRes with
  | .error e => (.error e, r)
  | .ok (t, r1) =>
    if isTokenExpired env.now (some t) then
      match doRefreshR env t r1 with
      | (.error e, r2) => (.error e, r2)
      | (.ok t', r2) => (.ok t'.access_token, r2)
    else (.ok t.access_token, r1)

/-! ### The resilient request executor -/

/-- Source `RETRYABLE_STATUSES`. -/
def RETRYABLE_STATUSES : List Nat := [408, 429, 500, 502, 503, 504]

/-- Source `friendlyError(status, defaultMsg)`: the per-status message table,
else a truthy `defaultMsg`, else the generic fallback. -/
def friendlyError (status : Nat) (defaultMsg : Option String) : String :=
  match status with
  | 400 => "Requisição inválida. Verifique os parâmetros."
  | 401 => "Token expirado ou inválido. Execute `node auth.js` novamente."
  | 403 => "Sem permissão. Verifique os scopes do app no Zoom Marketplace."
  | 404 => "Recurso não encontrado no Zoom."
  | 429 => "Limite de requisições do Zoom atingido. Tente novamente em alguns segundos."
  | 500 => "Erro interno do servidor Zoom."
  | 502 => "Zoom temporariamente indisponível."
  | 503 => "Zoom em manutenção."
  | _ =>
    match defaultMsg with
    | some m => if m ≠ "" then m else "Erro " ++ toString status ++ " na API do Zoom."
    | none => "Erro " ++ toString status ++ " na API do Zoom."

/-- `response.ok`: status in the 2xx range. -/
def respOk (status : Nat) : Bool :=
  200 ≤ status && status < 300

/-- Error detail extracted from a non-success body:
`errJson.message || errJson.error || JSON.stringify(errJson)`.  (The raw-text
fallback for unparseable bodies is not modelled: bodies arrive parsed.) -/
def errDetail (o : JObj) : String :=
  match jget o "message" with
  | some v =>
    if jTruthy v then jToStr v
    else
      match jget o "error" with
      | some w => if jTruthy w then jToStr w else jStringify o
      | none => jStringify o
  | none =>
    match jget o "error" with
    | some w => if jTruthy w then jToStr w else jStringify o
    | none => jStringify o

/-- The exponential backoff delay: `Math.min(1000 * 2 ** (attempt - 1), 8000)`. -/
def backoffDelay (attempt : Nat) : Nat :=
  min (1000 * 2 ^ (attempt - 1)) 8000

/-- Outcome of a `zoomRequest` call: a parsed JSON body (HTTP 204 gives the
empty object), a thrown error message, or the implicit `undefined` a JS
function returns when the `for` loop exits without `return` or `throw`. -/
inductive ZResult where
  | success (data : JObj)
  | thrown (msg : String)
  | undef
deriving DecidableEq, Repr

/-- Result of one iteration of the attempt loop: terminate with an outcome, or
`continue` to the next attempt. -/
inductive StepRes where
  | done (out : ZResult) (r : Run)
  | next (r : Run)
deriving DecidableEq, Repr

/-- The trace state a step result carries. -/
def StepRes.run : StepRes → Run
  | .done _ r => r
  | .next r => r

/-- Handling of a network-level `fetch` failure inside the attempt loop
(`r2` already accounts for the request just issued): backoff-and-continue
while attempts remain, final classified `NetworkError` otherwise. -/
def zoomStepNet (retries attempt : Nat) (msg : String) (r2 : Run) : StepRes :=
  if attempt < retries then
    .next { r2 with sleeps := r2.sleeps ++ [backoffDelay attempt] }
  else
    .done (.thrown ("Erro de conexão com Zoom após " ++ toString retries ++
      " tentativas: " ++ msg)) r2

/-- Handling of an HTTP response inside the attempt loop: the
401-on-first-attempt renewal, the retryable-status backoff, the generic
`ApiError`, the 204 empty result, and the parsed-body success, in source
order. -/
def zoomStepResp (env : Env) (retries attempt status : Nat) (body : JObj)
    (r2 : Run) : StepRes :=
  if status = 401 ∧ attempt = 1 then
    match (match r2.st.cachedTokens with
           | some t => Except.ok (t, r2)
           | none =>
             match loadTokens env.dirname r2.st with
             | .error e => Except.error e
             | .ok (t, st') => Except.ok (t, { r2 with st := st' })) with
    | .error _ => .done (.thrown (friendlyError 401 none)) r2
    | .ok (tk, r3) =>
      match doRefreshR env tk r3 with
      | (.error _, r4) => .done (.thrown (friendlyError 401 none)) r4
      | (.ok _, r4) => .next r4
  else if respOk status = false ∧ status ∈ RETRYABLE_STATUSES ∧ attempt < retries then
    .next { r2 with sleeps := r2.sleeps ++ [backoffDelay attempt] }
  else if respOk status = false then
    .done (.thrown ((friendlyError status none ++ " " ++ errDetail body).trim)) r2
  else if status = 204 then
    .done (.success []) r2
  else
    .done (.success body) r2

/-- One iteration of the `zoomRequest` attempt loop, straight from the source:
get a token (propagating a thrown error), issue the fetch, then dispatch on
the outcome. -/
def zoomStep (env : Env) (retries attempt : Nat) (r : Run) : StepRes :=
  match getAccessTokenR env r with
  | (.error e, r1) => .done (.thrown e) r1
  | (.ok _accessToken, r1) =>
    let outcome := env.fetch r1.apiCalls
    let r2 : Run := { r1 with apiCalls := r1.apiCalls + 1 }
    match outcome with
    | .netErr msg => zoomStepNet retries attempt msg r2
    | .resp status body => zoomStepResp env retries attempt status body r2

/-- The attempt loop of `zoomRequest`.  `fuel` counts the iterations the
`for (let attempt = 1; attempt <= retries; attempt++)` header still allows
(`fuel = retries + 1 - attempt` at every call from the wrapper); exhausting it
is the loop exiting, after which the JS function returns `undefined`. -/
def zoomLoop (env : Env) (retries : Nat) : Nat → Nat → Run → ZResult × Run
  | 0, _attempt, r => (.undef, r)
  | fuel + 1, attempt, r =>
    match zoomStep env retries attempt r with
    | .done out r' => (out, r')
    | .next r' => zoomLoop env retries fuel (attempt + 1) r'

/-- Source `zoomRequest(method, path, { query, body, retries = 3 })`.  The
HTTP method, path, query and body shape the request but not the control flow,
which is what the claims are about; the response to each issued request comes
from `env.fetch`. -/
def zoomRequest (env : Env) (method path : String) (retries : Nat) (r : Run) :
    ZResult × Run :=
  zoomLoop env retries retries 1 r

/-! ### The paginated collector -/

/-- Is this (possibly absent) value an array?  Mirrors `Array.isArray(data[k])`. -/
def isArrayVal : Option JVal → Bool
  | some (.arr _) => true
  | _ => false

/-- `Object.keys(data).find(k => Array.isArray(data[k]) && k !== "page_size")`. -/
def autoKey (data : JObj) : Option String :=
  (data.map Prod.fst).find? (fun k => isArrayVal (jget data k) && k ≠ "page_size")

/-- `const key = resultKey || ...`: a truthy (non-empty) `resultKey` wins,
otherwise the automatic detection. -/
def chosenKey (data : JObj) (resultKey : Option String) : Option String :=
  match resultKey with
  | some s => if s ≠ "" then some s else autoKey data
  | none => autoKey data

/-- The items one page contributes:
`if (key && data[key]) allItems.push(...data[key])`.  (Spreading a truthy
non-array value would throw or spread characters in JS; such a value
contributes nothing here, and no claim exercises that corner.) -/
def pushedItems (data : JObj) (resultKey : Option String) : List Item :=
  match chosenKey data resultKey with
  | none => []
  | some k =>
    match jget data k with
    | some v =>
      if jTruthy v then
        match v with
        | .arr xs => xs
        | _ => []
      else []
    | none => []

/-- `pageToken = data.next_page_token || ""`. -/
def pageTokenOf (data : JObj) : JVal :=
  match jget data "next_page_token" with
  | some v => if jTruthy v then v else .str ""
  | none => .str ""

/-- The `do ... while (pageToken && pages < maxPages)` loop of
`zoomRequestAllPages`.  `pages i` is the result of the i-th inner
`zoomRequest` call (a thrown error aborts the collector); the second
component of the result counts the executor calls made.  `fuel` is a
structural bound kept equal to `maxPages - pageIdx` by the wrapper, so the
guard `pageIdx + 1 < maxPages` always fires before fuel runs out. -/
def collectGo (pages : Nat → Except String JObj) (resultKey : Option String)
    (maxPages : Nat) : Nat → List Item → Nat → Except String (List Item) × Nat
  | fuel, allItems, pageIdx =>
    match pages pageIdx with
    | .error e => (.error e, pageIdx + 1)
    | .ok data =>
      let allItems' := allItems ++ pushedItems data resultKey
      let tok := pageTokenOf data
      if jTruthy tok ∧ pageIdx + 1 < maxPages then
        match fuel with
        | 0 => (.ok allItems', pageIdx + 1)
        | fuel' + 1 => collectGo pages resultKey maxPages fuel' allItems' (pageIdx + 1)
      else (.ok allItems', pageIdx + 1)

/-- Source `zoomRequestAllPages(path, { query, resultKey, maxPages = 10 })`. -/
def zoomRequestAllPages (pages : Nat → Except String JObj)
    (resultKey : Option String) (maxPages : Nat) : Except String (List Item) × Nat :=
  collectGo pages resultKey maxPages maxPages [] 0

/-! ### The zoom_status tool handler -/

/-- The success text of `zoom_status`, built from `/users/me` fields. -/
def zoomStatusOkText (data : JObj) : String :=
  let fieldOr := fun (k d : String) =>
    match jget data k with
    | some v => if jTruthy v then jToStr v else d
    | none => d
  "✅ Zoom conectado!\n\n" ++
  "**Usuário:** " ++ fieldOr "first_name" "" ++ " " ++ fieldOr "last_name" "" ++ "\n" ++
  "**Email:** " ++ fieldOr "email" "N/A" ++ "\n" ++
  "**Conta:** " ++ fieldOr "account_id" "N/A" ++ "\n" ++
  "**Tipo:** " ++
    (if jget data "type" = some (.num 1) then "Basic"
     else if jget data "type" = some (.num 2) then "Licensed"
     else "Tipo " ++ (match jget data "type" with
                      | some v => jToStr v
                      | none => "undefined")) ++ "\n" ++
  "**Status:** " ++ fieldOr "status" "N/A"

/-- The `zoom_status` tool handler: when `isAuthorized()` is false it returns
the onboarding message without touching the network; otherwise it issues
`zoomRequest("GET", "/users/me")` and formats the result or the caught
error.  (The `undef` arm is unreachable for the default `retries = 3`.) -/
def zoomStatus (env : Env) (r : Run) : String × Run :=
  if isAuthorized r.st = false then
    (ONBOARDING_MSG env.dirname, r)
  else
    match zoomRequest env "GET" "/users/me" 3 r with
    | (.success data, r') => (zoomStatusOkText data, r')
    | (.thrown e, r') =>
      ("⚠️ Tokens encontrados mas a conexão falhou: " ++ e ++
        "\n\nTente rodar `node auth.js` novamente.", r')
    | (.undef, r') => ("undefined", r')

/-- Concatenation of the items of pages `k, k+1, ..., k+m-1` in response
order: the reference result of the paginated collector. -/
def pageConcat (f : Nat → JObj) (resultKey : Option String) : Nat → Nat → List Item
  | _, 0 => []
  | k, m + 1 => pushedItems (f k) resultKey ++ pageConcat f resultKey (k + 1) m

end ZoomMcp

deriving instance DecidableEq for Except

namespace ZoomMcp

/-! ### Concrete fixtures used by witnesses and counterexamples -/

/-- A credential set that is not expired at `now = 1000`. -/
def tFresh : Tokens := ⟨some "tokA", some "tokR", some "bearer", some 3600, some "chat", some 500⟩

/-- A module state holding `tFresh` in cache and on disk. -/
def stW : St := ⟨some tFresh, some tFresh⟩

/-- A token-endpoint success body. -/
def dNew : TokenData := ⟨some "tokA2", some "tokR2", some "bearer", some 3600, some "chat"⟩

/-- Fixture: 401 then 200, renewal succeeding. -/
def envA : Env :=
  ⟨"/d", 1000, fun _ => .ok dNew,
   fun i => if i = 0 then .resp 401 [] else .resp 200 [("id", .str "u1")]⟩

/-- Fixture: 401 with the renewal rejected upstream. -/
def envB : Env :=
  ⟨"/d", 1000, fun _ => .httpErr 400 "invalid_grant", fun _ => .resp 401 []⟩

/-- Fixture: 500 then 401. -/
def envC : Env :=
  ⟨"/d", 1000, fun _ => .ok dNew,
   fun i => if i = 0 then .resp 500 [] else .resp 401 [("message", .str "denied")]⟩

/-- Fixture: every API response is 401, renewal succeeding. -/
def envD : Env :=
  ⟨"/d", 1000, fun _ => .ok dNew, fun _ => .resp 401 []⟩

/-- Fixture: every fetch fails at network level. -/
def envN : Env := ⟨"/d", 1000, fun _ => .ok dNew, fun _ => .netErr "timeout"⟩

/-- Fixture: every response is 429. -/
def envR429 : Env := ⟨"/d", 1000, fun _ => .ok dNew, fun _ => .resp 429 []⟩

/-- Fixture: every response is 404 with a message body. -/
def envR404 : Env :=
  ⟨"/d", 1000, fun _ => .ok dNew, fun _ => .resp 404 [("message", .str "not found")]⟩

/-- Fixture: every API response is 401 and the renewal succeeds. -/
def envC9 : Env :=
  ⟨"/srv/zoom-mcp", 2000, fun _ => .ok ⟨some "newA", some "newR", some "bearer", some 3599, some "chat"⟩,
   fun _ => .resp 401 [("message", .str "Invalid access token.")]⟩

/-- Fixture: a credential set fresh at `now = 2000`. -/
def tC9 : Tokens := ⟨some "oldA", some "oldR", some "bearer", some 3600, some "chat", some 1500⟩

/-- Fixture: every page carries two items and a non-empty token. -/
def pgEndless : Nat → Except String JObj :=
  fun _ => .ok [("meetings", .arr ["m1", "m2"]), ("next_page_token", .str "t")]

/-- Fixture: three pages, the last one with an empty token. -/
def pg3f : Nat → JObj := fun i =>
  if i = 0 then [("meetings", .arr ["a"]), ("next_page_token", .str "t1")]
  else if i = 1 then [("meetings", .arr ["b"]), ("next_page_token", .str "t2")]
  else [("meetings", .arr ["c"]), ("next_page_token", .str "")]

end ZoomMcp

namespace ZoomMcp

/-! ### Helper lemmas -/

/-- A `doRefreshR` call makes exactly one token-endpoint request and touches
no API counter or sleep log. -/
theorem doRefreshR_counters (env : Env) (tk : Tokens) (r : Run) :
    (doRefreshR env tk r).2.tokenCalls = r.tokenCalls + 1 ∧
    (doRefreshR env tk r).2.apiCalls = r.apiCalls ∧
    (doRefreshR env tk r).2.sleeps = r.sleeps := by
  unfold doRefreshR
  cases h : refreshAccessToken env.now (env.refresh r.tokenCalls) tk r.st with
  | error e => simp [h]
  | ok p => obtain ⟨t, st'⟩ := p; simp [h]

/-- `getAccessTokenR` issues no API request and sleeps never. -/
theorem getAccessTokenR_counters (env : Env) (r : Run) :
    (getAccessTokenR env r).2.apiCalls = r.apiCalls ∧
    (getAccessTokenR env r).2.sleeps = r.sleeps := by
  unfold getAccessTokenR
  cases hc : r.st.cachedTokens with
  | some t =>
    simp only
    split
    · cases hd : doRefreshR env t r with
      | mk res r2 =>
        have := doRefreshR_counters env t r
        rw [hd] at this
        cases res <;> simp_all
    · simp
  | none =>
    cases hf : loadTokens env.dirname r.st with
    | error e => simp
    | ok p =>
      simp only
      split
      · cases hd : doRefreshR env p.1 { r with st := p.2 } with
        | mk res r2 =>
          have := doRefreshR_counters env p.1 { r with st := p.2 }
          rw [hd] at this
          cases res <;> simp_all
      · simp

/-- When the cache holds a non-expired credential set, `getAccessToken` simply
returns its access token and changes nothing. -/
theorem getAccessTokenR_cached_fresh (env : Env) (r : Run) (t : Tokens)
    (hc : r.st.cachedTokens = some t)
    (hf : isTokenExpired env.now (some t) = false) :
    getAccessTokenR env r = (.ok t.access_token, r) := by
  unfold getAccessTokenR
  rw [hc]
  simp [hf]

/-! ### C1: the expiry predicate -/

/-- C1 (counterexample): at the exact instant `now = created_at +
expires_in * 1000 - 60000` the claim says `isTokenExpired` is true
(`now >= ...`), but the code's strict `>` makes it false. -/
theorem claim_c1_counterexample :
    isTokenExpired 4540000
        (some ⟨some "a", some "r", some "b", some 3600, some "s", some 1000000⟩) = false ∧
    (4540000 : Int) ≥ 1000000 + 3600 * 1000 - 60000 := by
  decide

/-- C1 (amended): when `created_at` and `expires_in` are both present and
nonzero, `isTokenExpired` is true iff `now > created_at + expires_in * 1000 -
60000` (strictly); when either is absent — or zero, which JS truthiness
conflates with absent — it is true. -/
theorem claim_c1 (now : Int) (t : Tokens) :
    (∀ c e : Int, t.created_at = some c → t.expires_in = some e → c ≠ 0 → e ≠ 0 →
      (isTokenExpired now (some t) = true ↔ now > c + e * 1000 - 60000)) ∧
    ((t.created_at = none ∨ t.created_at = some 0 ∨
      t.expires_in = none ∨ t.expires_in = some 0) →
      isTokenExpired now (some t) = true) := by
  constructor
  · rintro c e hc he hc0 he0
    simp [isTokenExpired, hc, he, hc0, he0]
  · rintro (h | h | h | h) <;>
      rcases hca : t.created_at with _ | c <;>
      rcases hea : t.expires_in with _ | e <;>
      simp_all [isTokenExpired]

/-- C1 (witness): the amended theorem applied one millisecond past the
boundary, and to a set with `expires_in` absent. -/
theorem claim_c1_witness :
    (isTokenExpired 4540001
        (some ⟨some "a", some "r", some "b", some 3600, some "s", some 1000000⟩) = true ↔
      (4540001 : Int) > 1000000 + 3600 * 1000 - 60000) ∧
    isTokenExpired 4540001
        (some ⟨some "a", some "r", some "b", none, some "s", some 1000000⟩) = true :=
  ⟨(claim_c1 4540001 _).1 1000000 3600 rfl rfl (by decide) (by decide),
   (claim_c1 4540001 _).2 (Or.inr (Or.inr (Or.inl rfl)))⟩

/-! ### C5: save/load round trip -/

/-- C5: saving a credential set and reloading it with the in-memory cache
bypassed (cleared) returns the same set field for field, and repopulates the
cache. -/
theorem claim_c5 (dirname : String) (t : Tokens) (st : St) :
    loadTokens dirname { saveTokens t st with cachedTokens := none } =
      .ok (t, { cachedTokens := some t, file := some t }) :=
  rfl

/-! ### C6: missing credential record -/

/-- C6: with no durable record, `loadTokens` fails with exactly the
onboarding/remediation message, and `zoom_status` returns that message while
leaving the whole run state — in particular the API and token-endpoint call
counters — untouched. -/
theorem claim_c6 (env : Env) (r : Run) (h : r.st.file = none) :
    loadTokens env.dirname r.st = .error (ONBOARDING_MSG env.dirname) ∧
    zoomStatus env r = (ONBOARDING_MSG env.dirname, r) := by
  constructor
  · simp [loadTokens, h]
  · simp [zoomStatus, isAuthorized, h]

/-- C6 (witness): the theorem at a concrete empty state. -/
theorem claim_c6_witness :
    loadTokens "/opt/zoom-mcp" (⟨none, none⟩ : St) =
      .error (ONBOARDING_MSG "/opt/zoom-mcp") ∧
    zoomStatus ⟨"/opt/zoom-mcp", 1000, fun _ => .ok dNew, fun _ => .resp 200 []⟩
        (Run.init ⟨none, none⟩) =
      (ONBOARDING_MSG "/opt/zoom-mcp", Run.init ⟨none, none⟩) :=
  claim_c6 ⟨"/opt/zoom-mcp", 1000, fun _ => .ok dNew, fun _ => .resp 200 []⟩
    (Run.init ⟨none, none⟩) rfl

/-! ### C7: renewal replaces everything and persists -/

/-- C7: on a token-endpoint success the new credential set is built entirely
from the response fields with `created_at = now` — the prior set `tk` is
universally quantified and absent from the result, so no field carries over —
and it is persisted to cache and disk before being returned.  On a non-success
response the call fails with the message embedding the upstream status and
body plus the re-authorization instruction, and `doRefreshR` makes exactly one
token-endpoint request whatever the outcome (a rejected refresh is not
retried). -/
theorem claim_c7 (now : Int) (d : TokenData) (s : Nat) (b : String)
    (tk : Tokens) (st : St) (env : Env) (r : Run) :
    refreshAccessToken now (.ok d) tk st =
      .ok (newTokensOf d now,
        { cachedTokens := some (newTokensOf d now), file := some (newTokensOf d now) }) ∧
    newTokensOf d now =
      ⟨d.access_token, d.refresh_token, d.token_type, d.expires_in, d.scope, some now⟩ ∧
    refreshAccessToken now (.httpErr s b) tk st =
      .error ("Falha ao renovar token (HTTP " ++ toString s ++ "): " ++ b ++
        "\nExecute `node auth.js` novamente para reautorizar.") ∧
    (doRefreshR env tk r).2.tokenCalls = r.tokenCalls + 1 :=
  ⟨rfl, rfl, rfl, (doRefreshR_counters env tk r).1⟩

/-! ### C10: cache coherence -/

/-- C10: after a successful `loadTokens` the cache holds exactly the set just
read and the file is untouched; after `saveTokens` cache and file both hold
exactly the saved set; after a successful `refreshAccessToken` cache and file
both hold exactly the renewed set; and `getAccessToken` either leaves the
cache alone or leaves it equal to the durable record.  The cache is only ever
replaced wholesale with `some t`. -/
theorem claim_c10 :
    (∀ d st t st', loadTokens d st = .ok (t, st') →
      st'.cachedTokens = some t ∧ st'.file = st.file ∧ st.file = some t) ∧
    (∀ t st, (saveTokens t st).cachedTokens = some t ∧ (saveTokens t st).file = some t) ∧
    (∀ now o tk st t' st', refreshAccessToken now o tk st = .ok (t', st') →
      st'.cachedTokens = some t' ∧ st'.file = some t') ∧
    (∀ env r, (getAccessTokenR env r).2.st.cachedTokens = r.st.cachedTokens ∨
      (getAccessTokenR env r).2.st.cachedTokens = (getAccessTokenR env r).2.st.file) := by
  refine ⟨?_, ?_, ?_, ?_⟩
  · intro d st t st' h
    unfold loadTokens at h
    cases hf : st.file with
    | none => rw [hf] at h; exact absurd h (by simp)
    | some u =>
      rw [hf] at h
      simp at h
      rcases h with ⟨rfl, rfl⟩
      simp [hf]
  · intro t st
    exact ⟨rfl, rfl⟩
  · intro now o tk st t' st' h
    cases o with
    | httpErr s b => exact absurd h (by simp [refreshAccessToken])
    | ok d =>
      simp [refreshAccessToken, saveTokens] at h
      simp [← h.1, ← h.2]
  · intro env r
    unfold getAccessTokenR
    cases hc : r.st.cachedTokens with
    | some t =>
      simp only
      split
      · unfold doRefreshR refreshAccessToken
        cases hr : env.refresh r.tokenCalls with
        | httpErr s b => simp [hc]
        | ok d => simp [saveTokens]
      · simp [hc]
    | none =>
      cases hf : r.st.file with
      | none => simp [loadTokens, hf, hc]
      | some u =>
        simp only [loadTokens, hf]
        split
        · unfold doRefreshR refreshAccessToken
          cases hr : env.refresh r.tokenCalls with
          | httpErr s b => simp
          | ok d => simp [saveTokens]
        · simp

/-- C10 (witness): the four conjuncts applied at concrete states. -/
theorem claim_c10_witness :
    ((⟨some tFresh, some tFresh⟩ : St).cachedTokens = some tFresh ∧
      (⟨some tFresh, some tFresh⟩ : St).file = (⟨none, some tFresh⟩ : St).file ∧
      (⟨none, some tFresh⟩ : St).file = some tFresh) ∧
    ((saveTokens tFresh ⟨none, none⟩).cachedTokens = some tFresh ∧
      (saveTokens tFresh ⟨none, none⟩).file = some tFresh) ∧
    ((⟨some (newTokensOf dNew 1000), some (newTokensOf dNew 1000)⟩ : St).cachedTokens =
        some (newTokensOf dNew 1000) ∧
      (⟨some (newTokensOf dNew 1000), some (newTokensOf dNew 1000)⟩ : St).file =
        some (newTokensOf dNew 1000)) ∧
    ((getAccessTokenR ⟨"/d", 1000, fun _ => .ok dNew, fun _ => .resp 200 []⟩
        (Run.init ⟨none, some tFresh⟩)).2.st.cachedTokens =
        (Run.init ⟨none, some tFresh⟩).st.cachedTokens ∨
      (getAccessTokenR ⟨"/d", 1000, fun _ => .ok dNew, fun _ => .resp 200 []⟩
        (Run.init ⟨none, some tFresh⟩)).2.st.cachedTokens =
        (getAccessTokenR ⟨"/d", 1000, fun _ => .ok dNew, fun _ => .resp 200 []⟩
          (Run.init ⟨none, some tFresh⟩)).2.st.file) :=
  ⟨claim_c10.1 "/d" ⟨none, some tFresh⟩ tFresh ⟨some tFresh, some tFresh⟩ rfl,
   claim_c10.2.1 tFresh ⟨none, none⟩,
   claim_c10.2.2.1 1000 (.ok dNew) tFresh ⟨none, none⟩ (newTokensOf dNew 1000)
     ⟨some (newTokensOf dNew 1000), some (newTokensOf dNew 1000)⟩ rfl,
   claim_c10.2.2.2 ⟨"/d", 1000, fun _ => .ok dNew, fun _ => .resp 200 []⟩
     (Run.init ⟨none, some tFresh⟩)⟩

end ZoomMcp

namespace ZoomMcp

/-- The network-failure handler does not issue another API request itself. -/
theorem zoomStepNet_run (retries attempt : Nat) (msg : String) (r2 : Run) :
    (zoomStepNet retries attempt msg r2).run.apiCalls = r2.apiCalls := by
  unfold zoomStepNet
  split <;> rfl

/-- The response handler does not issue another API request itself (the
401 renewal path hits only the token endpoint). -/
theorem zoomStepResp_run (env : Env) (retries attempt status : Nat) (body : JObj) (r2 : Run) :
    (zoomStepResp env retries attempt status body r2).run.apiCalls = r2.apiCalls := by
  unfold zoomStepResp
  split
  · cases hcc : r2.st.cachedTokens with
    | some t =>
      dsimp only
      cases hd : doRefreshR env t r2 with
      | mk dres r4 =>
        have h := doRefreshR_counters env t r2
        rw [hd] at h
        cases dres <;> simp only [StepRes.run] <;> exact h.2.1
    | none =>
      cases hl : loadTokens env.dirname r2.st with
      | error e => simp [StepRes.run]
      | ok p =>
        obtain ⟨t, st'⟩ := p
        dsimp only
        cases hd : doRefreshR env t { r2 with st := st' } with
        | mk dres r4 =>
          have h := doRefreshR_counters env t { r2 with st := st' }
          rw [hd] at h
          cases dres <;> simp only [StepRes.run] <;> exact h.2.1
  · split
    · rfl
    · split
      · rfl
      · split <;> rfl

/-- One loop iteration issues at most one API request. -/
theorem zoomStep_run_apiCalls (env : Env) (retries attempt : Nat) (r : Run) :
    (zoomStep env retries attempt r).run.apiCalls ≤ r.apiCalls + 1 := by
  unfold zoomStep
  cases hg : getAccessTokenR env r with
  | mk res r1 =>
    have h1 : r1.apiCalls = r.apiCalls := by
      have h := getAccessTokenR_counters env r
      rw [hg] at h
      exact h.1
    cases res with
    | error e => simp [StepRes.run]; omega
    | ok tok =>
      dsimp only
      cases ho : env.fetch r1.apiCalls with
      | netErr msg =>
        rw [zoomStepNet_run]
        simp
        omega
      | resp status body =>
        rw [zoomStepResp_run]
        simp
        omega

/-- The attempt loop issues at most `fuel` API requests. -/
theorem zoomLoop_apiCalls (env : Env) (retries : Nat) :
    ∀ fuel attempt r, (zoomLoop env retries fuel attempt r).2.apiCalls ≤ r.apiCalls + fuel := by
  intro fuel
  induction fuel with
  | zero => intro attempt r; simp [zoomLoop]
  | succ f ih =>
    intro attempt r
    rw [zoomLoop]
    cases hs : zoomStep env retries attempt r with
    | done out r' =>
      have h := zoomStep_run_apiCalls env retries attempt r
      rw [hs] at h
      simp only [StepRes.run] at h
      dsimp only
      omega
    | next r' =>
      have h := zoomStep_run_apiCalls env retries attempt r
      rw [hs] at h
      simp only [StepRes.run] at h
      have h2 := ih (attempt + 1) r'
      dsimp only
      omega

/-- C2: a single logical `zoomRequest` call issues at most `retries` HTTP
requests to the target API, whatever mix of network failures, retryable
statuses and 401 responses the attempts meet; token-endpoint calls are
counted separately (`tokenCalls`) and do not appear in `apiCalls`. -/
theorem claim_c2 (env : Env) (method path : String) (retries : Nat) (st : St) :
    (zoomRequest env method path retries (Run.init st)).2.apiCalls ≤ retries := by
  have h := zoomLoop_apiCalls env retries retries 1 (Run.init st)
  simpa [zoomRequest, Run.init] using h

end ZoomMcp

namespace ZoomMcp

/-- With a fresh cached credential, an attempt boils down to the fetch
dispatch on an incremented API counter. -/
theorem zoomStep_fresh_fetch (env : Env) (retries attempt : Nat) (r : Run) (t : Tokens)
    (hc : r.st.cachedTokens = some t)
    (hf : isTokenExpired env.now (some t) = false) :
    zoomStep env retries attempt r =
      match env.fetch r.apiCalls with
      | .netErr msg => zoomStepNet retries attempt msg { r with apiCalls := r.apiCalls + 1 }
      | .resp status body =>
        zoomStepResp env retries attempt status body { r with apiCalls := r.apiCalls + 1 } := by
  unfold zoomStep
  rw [getAccessTokenR_cached_fresh env r t hc hf]

/-- A 401 on attempt 1 with a successful renewal: one token-endpoint call,
state replaced by the persisted new credential set, and `continue` with no
sleep recorded. -/
theorem zoomStepResp_401_ok (env : Env) (retries : Nat) (body : JObj) (r2 : Run)
    (t : Tokens) (d : TokenData)
    (hc : r2.st.cachedTokens = some t)
    (hr : env.refresh r2.tokenCalls = .ok d) :
    zoomStepResp env retries 1 401 body r2 =
      .next ⟨⟨some (newTokensOf d env.now), some (newTokensOf d env.now)⟩,
             r2.tokenCalls + 1, r2.apiCalls, r2.sleeps⟩ := by
  unfold zoomStepResp
  rw [if_pos ⟨rfl, rfl⟩, hc]
  dsimp only
  unfold doRefreshR refreshAccessToken
  rw [hr]
  rfl

/-- A 401 on attempt 1 whose renewal fails: the classified Unauthorized
message is thrown after the single failed token-endpoint call. -/
theorem zoomStepResp_401_fail (env : Env) (retries : Nat) (body : JObj) (r2 : Run)
    (t : Tokens) (s : Nat) (eb : String)
    (hc : r2.st.cachedTokens = some t)
    (hr : env.refresh r2.tokenCalls = .httpErr s eb) :
    zoomStepResp env retries 1 401 body r2 =
      .done (.thrown (friendlyError 401 none))
        ⟨r2.st, r2.tokenCalls + 1, r2.apiCalls, r2.sleeps⟩ := by
  unfold zoomStepResp
  rw [if_pos ⟨rfl, rfl⟩, hc]
  dsimp only
  unfold doRefreshR refreshAccessToken
  rw [hr]

/-- A retryable status with attempts remaining: backoff recorded and
`continue`. -/
theorem zoomStepResp_retryable (env : Env) (retries attempt status : Nat) (body : JObj)
    (r2 : Run)
    (hmem : status ∈ RETRYABLE_STATUSES)
    (hlt : attempt < retries) :
    zoomStepResp env retries attempt status body r2 =
      .next { r2 with sleeps := r2.sleeps ++ [backoffDelay attempt] } := by
  have hok : respOk status = false := by
    simp [RETRYABLE_STATUSES] at hmem
    rcases hmem with rfl | rfl | rfl | rfl | rfl | rfl <;> rfl
  have hn1 : ¬(status = 401 ∧ attempt = 1) := by
    rintro ⟨rfl, _⟩
    simp [RETRYABLE_STATUSES] at hmem
  unfold zoomStepResp
  rw [if_neg hn1, if_pos ⟨hok, hmem, hlt⟩]

/-- A non-success response that is out of retry budget or not retryable (and
not the 401-on-attempt-1 case): the classified ApiError is thrown at once. -/
theorem zoomStepResp_apiError (env : Env) (retries attempt status : Nat) (body : JObj)
    (r2 : Run)
    (hok : respOk status = false)
    (hstop : status ∉ RETRYABLE_STATUSES ∨ ¬attempt < retries)
    (hn1 : ¬(status = 401 ∧ attempt = 1)) :
    zoomStepResp env retries attempt status body r2 =
      .done (.thrown ((friendlyError status none ++ " " ++ errDetail body).trim)) r2 := by
  unfold zoomStepResp
  rw [if_neg hn1]
  rw [if_neg (by rintro ⟨_, hmem, hlt⟩; rcases hstop with h | h <;> exact h (by assumption))]
  rw [if_pos hok]

/-- A non-204 success response returns its parsed body. -/
theorem zoomStepResp_success (env : Env) (retries attempt status : Nat) (body : JObj)
    (r2 : Run)
    (hok : respOk status = true)
    (h204 : status ≠ 204) :
    zoomStepResp env retries attempt status body r2 = .done (.success body) r2 := by
  have hn1 : ¬(status = 401 ∧ attempt = 1) := by
    rintro ⟨rfl, _⟩
    simp [respOk] at hok
  unfold zoomStepResp
  rw [if_neg hn1]
  rw [if_neg (by rintro ⟨hf, _⟩; rw [hok] at hf; simp at hf)]
  rw [if_neg (by rw [hok]; simp)]
  rw [if_neg h204]

/-- Unfolding the loop on a terminating step. -/
theorem zoomLoop_step_done (env : Env) (retries fuel attempt : Nat) (r r' : Run)
    (out : ZResult) (h : zoomStep env retries attempt r = .done out r') :
    zoomLoop env retries (fuel + 1) attempt r = (out, r') := by
  rw [zoomLoop, h]

/-- Unfolding the loop on a `continue` step. -/
theorem zoomLoop_step_next (env : Env) (retries fuel attempt : Nat) (r r' : Run)
    (h : zoomStep env retries attempt r = .next r') :
    zoomLoop env retries (fuel + 1) attempt r = zoomLoop env retries fuel (attempt + 1) r' := by
  rw [zoomLoop, h]

end ZoomMcp

namespace ZoomMcp

/-- C3 (amended): within one `zoomRequest` with a fresh cached credential, a
401 on attempt 1 triggers exactly one unconditional renewal (one
token-endpoint call despite the token not being expired) and, when the
budget allows a second attempt (`retries ≥ 2`), an immediate retry with no
backoff sleep; if the renewal fails the call throws the classified
Unauthorized message after that single renewal attempt; and a 401 on attempt
2 triggers no renewal (`tokenCalls = 0`) and falls through to the generic
ApiError path.  (With `retries = 1` the renewal happens but the loop exits
with no further attempt — see the counterexample.) -/
theorem claim_c3 (env : Env) (method path : String) (retries : Nat) (t : Tokens)
    (f0 : Option Tokens)
    (hfresh : isTokenExpired env.now (some t) = false) :
    (∀ b d body2, 2 ≤ retries →
      env.fetch 0 = .resp 401 b →
      env.refresh 0 = .ok d →
      env.fetch 1 = .resp 200 body2 →
      isTokenExpired env.now (some (newTokensOf d env.now)) = false →
      zoomRequest env method path retries (Run.init ⟨some t, f0⟩) =
        (.success body2,
         ⟨⟨some (newTokensOf d env.now), some (newTokensOf d env.now)⟩, 1, 2, []⟩)) ∧
    (∀ b s eb, 1 ≤ retries →
      env.fetch 0 = .resp 401 b →
      env.refresh 0 = .httpErr s eb →
      zoomRequest env method path retries (Run.init ⟨some t, f0⟩) =
        (.thrown (friendlyError 401 none), ⟨⟨some t, f0⟩, 1, 1, []⟩)) ∧
    (∀ b0 b1, 2 ≤ retries →
      env.fetch 0 = .resp 500 b0 →
      env.fetch 1 = .resp 401 b1 →
      zoomRequest env method path retries (Run.init ⟨some t, f0⟩) =
        (.thrown ((friendlyError 401 none ++ " " ++ errDetail b1).trim),
         ⟨⟨some t, f0⟩, 0, 2, [1000]⟩)) := by
  refine ⟨?_, ?_, ?_⟩
  · intro b d body2 h2r hf0 hr0 hf1 hfresh2
    obtain ⟨k, rfl⟩ : ∃ k, retries = k + 2 := ⟨retries - 2, by omega⟩
    have s1 : zoomStep env (k + 2) 1 (⟨⟨some t, f0⟩, 0, 0, []⟩ : Run) =
        .next ⟨⟨some (newTokensOf d env.now), some (newTokensOf d env.now)⟩, 1, 1, []⟩ := by
      rw [zoomStep_fresh_fetch env (k + 2) 1 _ t rfl hfresh]
      rw [show env.fetch (⟨⟨some t, f0⟩, 0, 0, []⟩ : Run).apiCalls = FetchOutcome.resp 401 b from hf0]
      dsimp only
      exact zoomStepResp_401_ok env (k + 2) b _ t d rfl hr0
    have s2 : zoomStep env (k + 2) 2
        (⟨⟨some (newTokensOf d env.now), some (newTokensOf d env.now)⟩, 1, 1, []⟩ : Run) =
        .done (.success body2)
          ⟨⟨some (newTokensOf d env.now), some (newTokensOf d env.now)⟩, 1, 2, []⟩ := by
      rw [zoomStep_fresh_fetch env (k + 2) 2 _ (newTokensOf d env.now) rfl hfresh2]
      rw [show env.fetch (⟨⟨some (newTokensOf d env.now), some (newTokensOf d env.now)⟩, 1, 1, []⟩ : Run).apiCalls =
            FetchOutcome.resp 200 body2 from hf1]
      dsimp only
      exact zoomStepResp_success env (k + 2) 2 200 body2 _ rfl (by decide)
    show zoomLoop env (k + 2) ((k + 1) + 1) 1 (⟨⟨some t, f0⟩, 0, 0, []⟩ : Run) = _
    rw [zoomLoop_step_next env (k + 2) (k + 1) 1 _ _ s1]
    show zoomLoop env (k + 2) (k + 1) 2 _ = _
    rw [zoomLoop_step_done env (k + 2) k 2 _ _ _ s2]
  · intro b s eb h1r hf0 hr0
    obtain ⟨k, rfl⟩ : ∃ k, retries = k + 1 := ⟨retries - 1, by omega⟩
    have s1 : zoomStep env (k + 1) 1 (⟨⟨some t, f0⟩, 0, 0, []⟩ : Run) =
        .done (.thrown (friendlyError 401 none)) ⟨⟨some t, f0⟩, 1, 1, []⟩ := by
      rw [zoomStep_fresh_fetch env (k + 1) 1 _ t rfl hfresh]
      rw [show env.fetch (⟨⟨some t, f0⟩, 0, 0, []⟩ : Run).apiCalls = FetchOutcome.resp 401 b from hf0]
      dsimp only
      exact zoomStepResp_401_fail env (k + 1) b _ t s eb rfl hr0
    show zoomLoop env (k + 1) (k + 1) 1 (⟨⟨some t, f0⟩, 0, 0, []⟩ : Run) = _
    rw [zoomLoop_step_done env (k + 1) k 1 _ _ _ s1]
  · intro b0 b1 h2r hf0 hf1
    obtain ⟨k, rfl⟩ : ∃ k, retries = k + 2 := ⟨retries - 2, by omega⟩
    have s1 : zoomStep env (k + 2) 1 (⟨⟨some t, f0⟩, 0, 0, []⟩ : Run) =
        .next ⟨⟨some t, f0⟩, 0, 1, [1000]⟩ := by
      rw [zoomStep_fresh_fetch env (k + 2) 1 _ t rfl hfresh]
      rw [show env.fetch (⟨⟨some t, f0⟩, 0, 0, []⟩ : Run).apiCalls = FetchOutcome.resp 500 b0 from hf0]
      dsimp only
      rw [zoomStepResp_retryable env (k + 2) 1 500 b0 _ (by decide) (by omega)]
      rfl
    have s2 : zoomStep env (k + 2) 2 (⟨⟨some t, f0⟩, 0, 1, [1000]⟩ : Run) =
        .done (.thrown ((friendlyError 401 none ++ " " ++ errDetail b1).trim))
          ⟨⟨some t, f0⟩, 0, 2, [1000]⟩ := by
      rw [zoomStep_fresh_fetch env (k + 2) 2 _ t rfl hfresh]
      rw [show env.fetch (⟨⟨some t, f0⟩, 0, 1, [1000]⟩ : Run).apiCalls = FetchOutcome.resp 401 b1 from hf1]
      dsimp only
      exact zoomStepResp_apiError env (k + 2) 2 401 b1 _ rfl (Or.inl (by decide))
        (by rintro ⟨_, h⟩; simp at h)
    show zoomLoop env (k + 2) ((k + 1) + 1) 1 (⟨⟨some t, f0⟩, 0, 0, []⟩ : Run) = _
    rw [zoomLoop_step_next env (k + 2) (k + 1) 1 _ _ s1]
    show zoomLoop env (k + 2) (k + 1) 2 _ = _
    rw [zoomLoop_step_done env (k + 2) k 2 _ _ _ s2]

end ZoomMcp

namespace ZoomMcp

/-- C3 (witness): the three branches of the amended claim at concrete runs. -/
theorem claim_c3_witness :
    zoomRequest envA "GET" "/users/me" 3 (Run.init ⟨some tFresh, some tFresh⟩) =
      (.success [("id", .str "u1")],
       ⟨⟨some (newTokensOf dNew 1000), some (newTokensOf dNew 1000)⟩, 1, 2, []⟩) ∧
    zoomRequest envB "GET" "/users/me" 3 (Run.init ⟨some tFresh, some tFresh⟩) =
      (.thrown (friendlyError 401 none), ⟨⟨some tFresh, some tFresh⟩, 1, 1, []⟩) ∧
    zoomRequest envC "GET" "/users/me" 3 (Run.init ⟨some tFresh, some tFresh⟩) =
      (.thrown ((friendlyError 401 none ++ " " ++ errDetail [("message", .str "denied")]).trim),
       ⟨⟨some tFresh, some tFresh⟩, 0, 2, [1000]⟩) :=
  ⟨(claim_c3 envA "GET" "/users/me" 3 tFresh (some tFresh) (by decide)).1
      [] dNew [("id", .str "u1")] (by omega) rfl rfl rfl (by decide),
   (claim_c3 envB "GET" "/users/me" 3 tFresh (some tFresh) (by decide)).2.1
      [] 400 "invalid_grant" (by omega) rfl rfl,
   (claim_c3 envC "GET" "/users/me" 3 tFresh (some tFresh) (by decide)).2.2
      [] [("message", .str "denied")] (by omega) rfl rfl⟩

/-- C3 (counterexample): with `retries = 1`, the 401 renewal is performed
(`tokenCalls = 1`) but no retry follows it (`apiCalls` stays 1) — the loop
exits and the call produces neither result nor error, contradicting
"followed by an immediate retry". -/
theorem claim_c3_counterexample :
    zoomRequest envD "GET" "/chat/channels" 1 (Run.init ⟨some tFresh, some tFresh⟩) =
      (.undef, ⟨⟨some (newTokensOf dNew 1000), some (newTokensOf dNew 1000)⟩, 1, 1, []⟩) := by
  decide

/-- C8: with a fresh cached credential, a network failure or a status in
exactly the retryable set `[408, 429, 500, 502, 503, 504]` with attempts
remaining records a backoff of `min(1000 * 2^(attempt-1), 8000)` ms and
continues; a non-success status outside the set (other than the
401-attempt-1 renewal case) is never retried on this path and throws the
classified ApiError; and a network failure on the final attempt throws the
NetworkError embedding the underlying cause and the attempt count. -/
theorem claim_c8 (env : Env) (retries attempt : Nat) (r : Run) (t : Tokens)
    (hc : r.st.cachedTokens = some t)
    (hf : isTokenExpired env.now (some t) = false) :
    RETRYABLE_STATUSES = [408, 429, 500, 502, 503, 504] ∧
    (∀ msg, env.fetch r.apiCalls = .netErr msg → attempt < retries →
      zoomStep env retries attempt r =
        .next { r with apiCalls := r.apiCalls + 1,
                       sleeps := r.sleeps ++ [min (1000 * 2 ^ (attempt - 1)) 8000] }) ∧
    (∀ status body, env.fetch r.apiCalls = .resp status body →
      status ∈ RETRYABLE_STATUSES → attempt < retries →
      zoomStep env retries attempt r =
        .next { r with apiCalls := r.apiCalls + 1,
                       sleeps := r.sleeps ++ [min (1000 * 2 ^ (attempt - 1)) 8000] }) ∧
    (∀ status body, env.fetch r.apiCalls = .resp status body →
      respOk status = false → status ∉ RETRYABLE_STATUSES → ¬(status = 401 ∧ attempt = 1) →
      zoomStep env retries attempt r =
        .done (.thrown ((friendlyError status none ++ " " ++ errDetail body).trim))
          { r with apiCalls := r.apiCalls + 1 }) ∧
    (∀ msg, env.fetch r.apiCalls = .netErr msg → ¬attempt < retries →
      zoomStep env retries attempt r =
        .done (.thrown ("Erro de conexão com Zoom após " ++ toString retries ++
          " tentativas: " ++ msg)) { r with apiCalls := r.apiCalls + 1 }) := by
  refine ⟨rfl, ?_, ?_, ?_, ?_⟩
  · intro msg hfe hlt
    rw [zoomStep_fresh_fetch env retries attempt r t hc hf, hfe]
    dsimp only
    unfold zoomStepNet
    rw [if_pos hlt]
    rfl
  · intro status body hfe hmem hlt
    rw [zoomStep_fresh_fetch env retries attempt r t hc hf, hfe]
    dsimp only
    rw [zoomStepResp_retryable env retries attempt status body _ hmem hlt]
    rfl
  · intro status body hfe hok hmem hn1
    rw [zoomStep_fresh_fetch env retries attempt r t hc hf, hfe]
    dsimp only
    rw [zoomStepResp_apiError env retries attempt status body _ hok (Or.inl hmem) hn1]
  · intro msg hfe hge
    rw [zoomStep_fresh_fetch env retries attempt r t hc hf, hfe]
    dsimp only
    unfold zoomStepNet
    rw [if_neg hge]

/-- C8 (witness): the four branches at concrete runs. -/
theorem claim_c8_witness :
    RETRYABLE_STATUSES = [408, 429, 500, 502, 503, 504] ∧
    zoomStep envN 3 1 (Run.init stW) = .next ⟨stW, 0, 1, [1000]⟩ ∧
    zoomStep envR429 3 1 (Run.init stW) = .next ⟨stW, 0, 1, [1000]⟩ ∧
    zoomStep envR404 3 1 (Run.init stW) =
      .done (.thrown ((friendlyError 404 none ++ " " ++
        errDetail [("message", .str "not found")]).trim)) ⟨stW, 0, 1, []⟩ ∧
    zoomStep envN 3 3 (Run.init stW) =
      .done (.thrown ("Erro de conexão com Zoom após " ++ toString 3 ++
        " tentativas: " ++ "timeout")) ⟨stW, 0, 1, []⟩ :=
  ⟨(claim_c8 envN 3 1 (Run.init stW) tFresh rfl (by decide)).1,
   (claim_c8 envN 3 1 (Run.init stW) tFresh rfl (by decide)).2.1 "timeout" rfl (by omega),
   (claim_c8 envR429 3 1 (Run.init stW) tFresh rfl (by decide)).2.2.1 429 [] rfl (by decide) (by omega),
   (claim_c8 envR404 3 1 (Run.init stW) tFresh rfl (by decide)).2.2.2.1 404
      [("message", .str "not found")] rfl (by decide) (by decide) (by simp),
   (claim_c8 envN 3 3 (Run.init stW) tFresh rfl (by decide)).2.2.2.2 "timeout" rfl (by omega)⟩

/-- C9 (code bug): a legal invocation with `retries = 1` whose first response
is a 401 and whose renewal succeeds makes the loop `continue`, exhaust its
budget and fall out, so the JS function returns `undefined`: no result and
no classified error, against the stated contract. -/
theorem claim_c9_bug :
    zoomRequest envC9 "POST" "/chat/users/me/messages" 1 (Run.init ⟨some tC9, some tC9⟩) =
      (.undef,
       ⟨⟨some (newTokensOf ⟨some "newA", some "newR", some "bearer", some 3599, some "chat"⟩ 2000),
         some (newTokensOf ⟨some "newA", some "newR", some "bearer", some 3599, some "chat"⟩ 2000)⟩,
        1, 1, []⟩) := by
  decide

end ZoomMcp

namespace ZoomMcp

/-- Concatenating zero pages gives the empty sequence. -/
theorem pageConcat_zero (f : Nat → JObj) (rk : Option String) (k : Nat) :
    pageConcat f rk k 0 = [] := rfl

/-- Peeling one page off the concatenation. -/
theorem pageConcat_succ (f : Nat → JObj) (rk : Option String) (k m : Nat) :
    pageConcat f rk k (m + 1) = pushedItems (f k) rk ++ pageConcat f rk (k + 1) m := rfl

/-- Full characterisation of a successful collector loop starting at page
`k` with enough fuel (`mp ≤ fuel + k`, which the wrapper establishes): it
makes between `k+1` and `max mp (k+1)` calls, returns the accumulated items
followed by the concatenation of the visited pages, never continues past a
page without a truthy token, and only stops on a truthy token when the page
cap is reached. -/
theorem collectGo_spec (f : Nat → JObj) (rk : Option String) (mp : Nat) :
    ∀ fuel acc k items n,
      mp ≤ fuel + k →
      collectGo (fun i => .ok (f i)) rk mp fuel acc k = (.ok items, n) →
      k + 1 ≤ n ∧ n ≤ max mp (k + 1) ∧
      items = acc ++ pageConcat f rk k (n - k) ∧
      (∀ i, k ≤ i → i + 1 < n → jTruthy (pageTokenOf (f i)) = true) ∧
      (jTruthy (pageTokenOf (f (n - 1))) = true → mp ≤ n) := by
  intro fuel
  induction fuel with
  | zero =>
    intro acc k items n hinv h
    rw [collectGo] at h
    dsimp only at h
    have hng : ¬((jTruthy (pageTokenOf (f k)) = true) ∧ k + 1 < mp) := by
      rintro ⟨_, hlt⟩; omega
    rw [if_neg hng] at h
    injection h with h1 h2
    injection h1 with h1
    subst h2
    refine ⟨le_refl _, le_max_right _ _, ?_, ?_, ?_⟩
    · have hk1 : k + 1 - k = 1 := by omega
      rw [hk1, pageConcat_succ, pageConcat_zero, List.append_nil]
      exact h1.symm
    · intro i hki hlt
      omega
    · intro _
      omega
  | succ fuel' ih =>
    intro acc k items n hinv h
    rw [collectGo] at h
    dsimp only at h
    by_cases hg : (jTruthy (pageTokenOf (f k)) = true) ∧ k + 1 < mp
    · rw [if_pos hg] at h
      obtain ⟨ih1, ih2, ih3, ih4, ih5⟩ :=
        ih (acc ++ pushedItems (f k) rk) (k + 1) items n (by omega) h
      refine ⟨by omega, ?_, ?_, ?_, ih5⟩
      · have hm1 : max mp (k + 1 + 1) = mp := Nat.max_eq_left (by omega)
        have hm2 : mp ≤ max mp (k + 1) := le_max_left _ _
        omega
      · rw [ih3]
        have hnk : n - k = (n - (k + 1)) + 1 := by omega
        rw [hnk, pageConcat_succ, List.append_assoc]
      · intro i hki hlt
        rcases Nat.eq_or_lt_of_le hki with rfl | hlt2
        · exact hg.1
        · exact ih4 i (by omega) hlt
    · rw [if_neg hg] at h
      injection h with h1 h2
      injection h1 with h1
      subst h2
      refine ⟨le_refl _, le_max_right _ _, ?_, ?_, ?_⟩
      · have hk1 : k + 1 - k = 1 := by omega
        rw [hk1, pageConcat_succ, pageConcat_zero, List.append_nil]
        exact h1.symm
      · intro i hki hlt
        omega
      · intro ht
        rcases Decidable.not_and_iff_or_not.mp hg with h' | h'
        · exact absurd ht h'
        · omega

/-- C4 (amended): a completed `zoomRequestAllPages` run over responses
`f 0, f 1, ...` makes `n ≤ max maxPages 1` executor calls — the do/while body
runs once even when `maxPages = 0`, hence the `max` with 1 — returns exactly
the concatenation of each visited page's items in response order, stops as
soon as a response carries no (truthy) `next_page_token`, and only stops on a
token-bearing page when the `maxPages` cap is hit. -/
theorem claim_c4 (f : Nat → JObj) (resultKey : Option String) (maxPages : Nat)
    (items : List Item) (n : Nat)
    (h : zoomRequestAllPages (fun i => .ok (f i)) resultKey maxPages = (.ok items, n)) :
    n ≤ max maxPages 1 ∧
    items = pageConcat f resultKey 0 n ∧
    (∀ i, i + 1 < n → jTruthy (pageTokenOf (f i)) = true) ∧
    (jTruthy (pageTokenOf (f (n - 1))) = true → maxPages ≤ n) := by
  obtain ⟨h1, h2, h3, h4, h5⟩ :=
    collectGo_spec f resultKey maxPages maxPages [] 0 items n (by omega) h
  exact ⟨by simpa using h2, by simpa using h3, fun i hi => h4 i (Nat.zero_le i) hi, h5⟩

/-- C4 (counterexample): with `maxPages = 0` the loop still performs one
executor call, so "at most maxPages iterations" fails as stated. -/
theorem claim_c4_counterexample :
    ¬((zoomRequestAllPages pgEndless none 0).2 ≤ 0) := by decide

/-- C4 (witness): the amended claim at a concrete three-page run. -/
theorem claim_c4_witness :
    3 ≤ max 10 1 ∧
    ["a", "b", "c"] = pageConcat pg3f none 0 3 ∧
    (∀ i, i + 1 < 3 → jTruthy (pageTokenOf (pg3f i)) = true) ∧
    (jTruthy (pageTokenOf (pg3f (3 - 1))) = true → 10 ≤ 3) :=
  claim_c4 pg3f none 10 ["a", "b", "c"] 3 (by decide)

end ZoomMcp
